import Mathlib

/-!
Verification development for the video-capture-dx11 decode pipeline.

The definitions below are a shallow embedding of the C++ sources:
  src/HardwareDecoder.cpp / .h   (backend capability records, GetBestDecoder)
  src/VideoDecoder.cpp           (SendPacket / ReceiveFrame result mapping)
  src/BufferDataSource.cpp       (streaming byte buffer: Read / Seek / SetData /
                                  AppendData / Clear / SetEOF)
  src/VideoDemuxer.cpp           (Open / FindVideoStream codec allow-list)
  src/VideoCapture.cpp           (session orchestration: open / read / get /
                                  set / release and the decode pump loop)

External engines (FFmpeg codec calls, D3D11 device operations, the raw byte
source) are modelled as oracle parameters: each wrapper receives the numeric
result the engine call would return and the embedding reproduces how the
source maps those results to its own return values and state updates.
Machine doubles are embedded as rationals, C-style integer truncation is
made explicit, and FFmpeg error codes keep their concrete integer values.
-/

/-- AVERROR_EOF: FFERRTAG of the four characters E, O, F, space. -/
def AVERROR_EOF : Int := -541478725

/-- AVERROR(EAGAIN), with EAGAIN = 11 (identical on MSVC and glibc). -/
def AVERROR_EAGAIN : Int := -11

/-- AVERROR(EINVAL), with EINVAL = 22. -/
def AVERROR_EINVAL : Int := -22

/-- AVERROR(ENOSYS), with ENOSYS = 40 (MSVC value; the code targets Windows). -/
def AVERROR_ENOSYS : Int := -40

/-- AVSEEK_SIZE = 0x10000: FFmpeg special whence flag asking for the size. -/
def AVSEEK_SIZE : Int := 65536

/-- C++ static_cast from double to int64_t: truncation toward zero. -/
def cppTruncQ (q : ℚ) : Int := if 0 ≤ q then ⌊q⌋ else ⌈q⌉

/-- C++ static_cast from a (possibly negative) int to size_t: reduction mod 2^64. -/
def castToSizeT (i : Int) : Nat := (i % (2 ^ 64)).toNat

/-- The FFmpeg codec identifiers the program mentions; every other id is
modelled by the catch-all constructor. -/
inductive AVCodecID where
  | AV_CODEC_ID_NONE
  | AV_CODEC_ID_H264
  | AV_CODEC_ID_HEVC
  | AV_CODEC_ID_AV1
  | other (n : Nat)
deriving DecidableEq

/-- src/HardwareDecoder.h: enum class DecoderType. -/
inductive DecoderType where
  | NONE
  | NVDEC
  | D3D11VA
deriving DecidableEq

/-- src/HardwareDecoder.h: struct DecoderInfo (the AVHWDeviceType field is
omitted: no examined code path reads it). -/
structure DecoderInfo where
  type : DecoderType
  name : String
  available : Bool
deriving DecidableEq

namespace HardwareDecoder

/-- The sentinel record GetBestDecoder builds when nothing qualifies. -/
def noneDecoder : DecoderInfo := ⟨DecoderType.NONE, "None", false⟩

/-- src/HardwareDecoder.cpp, SupportsCodec: only the D3D11VA backend supports
any codec, namely H.264, H.265/HEVC and AV1. -/
def SupportsCodec (decoder : DecoderInfo) (codecId : AVCodecID) : Bool :=
  match decoder.type with
  | DecoderType.D3D11VA =>
      decide (codecId = AVCodecID.AV_CODEC_ID_H264) ||
      decide (codecId = AVCodecID.AV_CODEC_ID_HEVC) ||
      decide (codecId = AVCodecID.AV_CODEC_ID_AV1)
  | _ => false

/-- src/HardwareDecoder.cpp, GetBestDecoder: first available D3D11VA record
supporting the codec, else the NONE sentinel.  The static fields
s_initialized and s_availableDecoders are passed explicitly. -/
def GetBestDecoder (s_initialized : Bool) (s_availableDecoders : List DecoderInfo)
    (codecId : AVCodecID) : DecoderInfo :=
  if !s_initialized then noneDecoder
  else
    match s_availableDecoders.find? (fun d =>
        d.available && decide (d.type = DecoderType.D3D11VA) && SupportsCodec d codecId) with
    | some d => d
    | none => noneDecoder

end HardwareDecoder

namespace VideoDecoder

/-- src/VideoCapture.cpp, InitializeDecoder lines 224-228: the backend gate
`if (decoderInfo.type != DecoderType::NVDEC || !decoderInfo.available) fail`.
Returns true when the gate passes. -/
def InitializeDecoder_backendOk (decoderInfo : DecoderInfo) : Bool :=
  !(!(decide (decoderInfo.type = DecoderType.NVDEC)) || !decoderInfo.available)

/-- src/VideoDecoder.cpp, Initialize line 40: the decoder construction gate
`if (decoderInfo.type != DecoderType::D3D11VA || !decoderInfo.available) fail`. -/
def Initialize_backendOk (decoderInfo : DecoderInfo) : Bool :=
  !(!(decide (decoderInfo.type = DecoderType.D3D11VA)) || !decoderInfo.available)

/-- src/VideoDecoder.cpp, SendPacket.  `ret` is the avcodec_send_packet
result.  The source returns false when uninitialized, true when ret is
AVERROR_EOF, false on any other negative ret, true otherwise. -/
def SendPacket (m_initialized hasCodecContext : Bool) (ret : Int) : Bool :=
  if !m_initialized || !hasCodecContext then false
  else if ret < 0 then
    if ret = AVERROR_EOF then true else false
  else true

/-- src/VideoDecoder.cpp, ReceiveFrame.  `ret` is the avcodec_receive_frame
result and `processOk` the ProcessHardwareFrame outcome (texture extraction,
only consulted when a frame arrived, i.e. ret is not negative).  The result
pair is (function return value, frame.valid afterwards); `prevValid` is the
valid flag left by an earlier call, untouched on the uninitialized path. -/
def ReceiveFrame (m_initialized hasCodecContext prevValid : Bool) (ret : Int)
    (processOk : Bool) : Bool × Bool :=
  if !m_initialized || !hasCodecContext then (false, prevValid)
  else
    if ret < 0 then
      if ret = AVERROR_EAGAIN then (true, false)
      else if ret = AVERROR_EOF then (true, false)
      else (false, false)
    else
      if processOk then (true, true) else (false, false)

end VideoDecoder

namespace BufferDataSource

/-- src/BufferDataSource.h state: owned byte buffer, read cursor, seekable
configuration flag and the one-way EOF mark.  The mutex serializes access
and carries no state of its own. -/
structure BufState where
  m_buffer : List Nat
  m_position : Nat
  m_seekable : Bool
  m_eof : Bool
deriving DecidableEq

/-- src/BufferDataSource.cpp, Read.  Returns (result code, bytes copied out,
new state).  At or past the end it reports AVERROR_EOF when the EOF mark is
set and AVERROR(EAGAIN) otherwise; else it copies
min(static_cast<size_t>(size), available) bytes and advances the cursor.
(The final static_cast<int> of the byte count is the identity for any
buffer smaller than 2^31 bytes and is modelled as the Nat-to-Int cast.) -/
def Read (s : BufState) (size : Int) : Int × List Nat × BufState :=
  if s.m_buffer.length ≤ s.m_position then
    if s.m_eof then (AVERROR_EOF, [], s)
    else (AVERROR_EAGAIN, [], s)
  else
    let available := s.m_buffer.length - s.m_position
    let toRead := min (castToSizeT size) available
    ((toRead : Int), (s.m_buffer.drop s.m_position).take toRead,
      { s with m_position := s.m_position + toRead })

/-- Common tail of the Seek switch in src/BufferDataSource.cpp: the computed
target is range-checked against [0, length] and either rejected with
AVERROR(EINVAL) or installed as the new cursor. -/
def seekRangeCheck (s : BufState) (newPos : Int) : Int × BufState :=
  if newPos < 0 || (s.m_buffer.length : Int) < newPos then (AVERROR_EINVAL, s)
  else (newPos, { s with m_position := newPos.toNat })

/-- src/BufferDataSource.cpp, Seek: ENOSYS when not seekable; SEEK_SET=0,
SEEK_CUR=1, SEEK_END=2 compute a target that is then range-checked;
AVSEEK_SIZE returns the buffer length without moving the cursor; any other
whence is AVERROR(EINVAL). -/
def Seek (s : BufState) (offset whence : Int) : Int × BufState :=
  if !s.m_seekable then (AVERROR_ENOSYS, s)
  else if whence = 0 then seekRangeCheck s offset
  else if whence = 1 then seekRangeCheck s ((s.m_position : Int) + offset)
  else if whence = 2 then seekRangeCheck s ((s.m_buffer.length : Int) + offset)
  else if whence = AVSEEK_SIZE then ((s.m_buffer.length : Int), s)
  else (AVERROR_EINVAL, s)

/-- src/BufferDataSource.cpp, GetSize: the length once EOF is marked, -1
while still streaming. -/
def GetSize (s : BufState) : Int :=
  if s.m_eof then (s.m_buffer.length : Int) else -1

/-- src/BufferDataSource.cpp, SetData: replace the buffer, cursor to 0. -/
def SetData (s : BufState) (data : List Nat) : BufState :=
  { s with m_buffer := data, m_position := 0 }

/-- src/BufferDataSource.cpp, AppendData: grow the buffer at the end. -/
def AppendData (s : BufState) (data : List Nat) : BufState :=
  { s with m_buffer := s.m_buffer ++ data }

/-- src/BufferDataSource.cpp, Clear: empty buffer, cursor 0, EOF cleared. -/
def Clear (s : BufState) : BufState :=
  { s with m_buffer := [], m_position := 0, m_eof := false }

/-- src/BufferDataSource.cpp, SetSeekable. -/
def SetSeekable (s : BufState) (seekable : Bool) : BufState :=
  { s with m_seekable := seekable }

/-- src/BufferDataSource.cpp, SetEOF. -/
def SetEOF (s : BufState) (eof : Bool) : BufState :=
  { s with m_eof := eof }

end BufferDataSource

namespace VideoDemuxer

/-- One container stream as FindVideoStream inspects it: whether
codecpar codec_type is AVMEDIA_TYPE_VIDEO, and the codec id. -/
structure StreamInfo where
  isVideo : Bool
  codecId : AVCodecID
deriving DecidableEq

/-- src/VideoDemuxer.cpp, FindVideoStream lines 270-275: the fixed codec
allow-list H.264, H.265/HEVC, AV1. -/
def codecAllowed (c : AVCodecID) : Bool :=
  decide (c = AVCodecID.AV_CODEC_ID_H264) ||
  decide (c = AVCodecID.AV_CODEC_ID_HEVC) ||
  decide (c = AVCodecID.AV_CODEC_ID_AV1)

/-- Demuxer state relevant to Open: the parse context with its streams (none
when closed), the selected stream index and the selected stream.  Reset in
src/VideoDemuxer.cpp sets the index to -1 and null pointers. -/
structure DemuxerSt where
  m_formatContext : Option (List StreamInfo)
  m_videoStreamIndex : Int
  m_videoStream : Option StreamInfo
deriving DecidableEq

/-- The closed/reset demuxer state produced by Close/Reset. -/
def closedDemuxer : DemuxerSt := ⟨none, -1, none⟩

/-- src/VideoDemuxer.cpp, FindVideoStream: walk the streams in order; at the
first video stream, select it and validate its codec against the allow-list,
returning failure immediately on a disallowed codec (later video streams are
never considered).  Success carries the selected index and stream. -/
def findVideoGo : Nat → List StreamInfo → Option (Nat × StreamInfo)
  | _, [] => none
  | i, st :: rest =>
      if st.isVideo then
        if codecAllowed st.codecId then some (i, st) else none
      else findVideoGo (i + 1) rest

/-- FindVideoStream over a full stream list, indices from 0. -/
def FindVideoStream (streams : List StreamInfo) : Option (Nat × StreamInfo) :=
  findVideoGo 0 streams

/-- The first stream whose codec type is video, independent of codec id. -/
def firstVideo (streams : List StreamInfo) : Option StreamInfo :=
  streams.find? (fun st => st.isVideo)

/-- src/VideoDemuxer.cpp, Open (both the path overload, lines 23-61, and the
data-source overload, lines 63-106, share this tail): after the container
engine opened the input (`openResult` is the parsed stream list, none on an
avformat_open_input / SetupCustomIO failure) and avformat_find_stream_info
returned (`findStreamInfoOk`), FindVideoStream selects and validates the
video stream; every failure path calls Close, leaving the reset state. -/
def Open (openResult : Option (List StreamInfo)) (findStreamInfoOk : Bool) :
    Bool × DemuxerSt :=
  match openResult with
  | none => (false, closedDemuxer)
  | some streams =>
      if !findStreamInfoOk then (false, closedDemuxer)
      else
        match FindVideoStream streams with
        | none => (false, closedDemuxer)
        | some (i, st) => (true, ⟨some streams, (i : Int), some st⟩)

end VideoDemuxer

namespace VideoCapture

/-- The demuxer metadata the session consults: GetDuration, GetFrameRate,
GetWidth, GetHeight results (doubles embedded as rationals). -/
structure DemuxerModel where
  duration : ℚ
  frameRate : ℚ
  width : Int
  height : Int
deriving DecidableEq

instance : Inhabited DemuxerModel := ⟨⟨0, 0, 0, 0⟩⟩

/-- The part of DecodedFrame the session reads back: the valid flag and the
presentation time in seconds. -/
structure FrameModel where
  valid : Bool
  presentationTime : ℚ
deriving DecidableEq

/-- src/include/VideoCapture.h members: m_opened, m_eof, m_frameCount and
the three owned objects, each modelled as present (with the data the session
reads from it) or absent. -/
structure SessionState where
  m_opened : Bool
  m_eof : Bool
  m_frameCount : Int
  m_demuxer : Option DemuxerModel
  m_decoder : Option Unit
  m_currentFrame : Option FrameModel
deriving DecidableEq

/-- Oracle for one iteration of the DecodeNextFrame pump loop: the results
of the engine calls the iteration may perform.  `recvOk`/`recvValid` are the
ReceiveFrame return value and the valid flag it leaves; `demuxOk` is the
demuxer ReadFrame result; `sendOk` the SendPacket result for that packet;
`drainRecvOk`/`drainRecvValid` the final ReceiveFrame after the null-packet
drain; `pts` the presentation time a produced frame carries. -/
structure PumpStep where
  recvOk : Bool
  recvValid : Bool
  demuxOk : Bool
  sendOk : Bool
  drainRecvOk : Bool
  drainRecvValid : Bool
  pts : ℚ
deriving DecidableEq

/-- The pump loop body of src/VideoCapture.cpp DecodeNextFrame, lines
252-279, with `fuel` iterations left (MAX_ATTEMPTS = 100 at the top call)
and `i` the current iteration index into the oracle.  The result is
(return value, whether the exhaustion error was logged, frame pts).
When ReceiveFrame yields a valid frame the loop returns true; when the
demuxer has no packet, a drain (null packet, result ignored) and one final
ReceiveFrame decide the outcome; a SendPacket failure returns false; fuel
running out is the distinct exhaustion failure (LOG_ERROR at line 281). -/
def decodeGo (steps : Nat → PumpStep) : Nat → Nat → Bool × Bool × ℚ
  | 0, _ => (false, true, 0)
  | fuel + 1, i =>
      let st := steps i
      if st.recvOk && st.recvValid then (true, false, st.pts)
      else if !st.demuxOk then
        if st.drainRecvOk && st.drainRecvValid then (true, false, st.pts)
        else (false, false, 0)
      else if !st.sendOk then (false, false, 0)
      else decodeGo steps fuel (i + 1)

/-- src/VideoCapture.cpp, DecodeNextFrame: fails at once without decoder or
demuxer, else runs the pump loop with the 100-attempt ceiling. -/
def DecodeNextFrame (hasDecoder hasDemuxer : Bool) (steps : Nat → PumpStep) :
    Bool × Bool × ℚ :=
  if !hasDecoder || !hasDemuxer then (false, false, 0)
  else decodeGo steps 100 0

/-- src/VideoCapture.cpp, read lines 90-114: false when not opened or at
EOF; on a DecodeNextFrame failure set m_eof and return false; otherwise
check the current frame holder and return its texture.  The transient
valid=false writes into the DecodedFrame holder during a failed decode are
not tracked: no examined property observes the holder after a failed read. -/
def read (s : SessionState) (steps : Nat → PumpStep) : Bool × SessionState :=
  if !s.m_opened || s.m_eof then (false, s)
  else
    let dec := DecodeNextFrame s.m_decoder.isSome s.m_demuxer.isSome steps
    if !dec.1 then (false, { s with m_eof := true })
    else
      match s.m_currentFrame with
      | none => (false, s)
      | some _ => (true, { s with m_currentFrame := some ⟨true, dec.2.2⟩ })

/-- src/VideoCapture.cpp, get lines 116-162.  Property ids follow
include/VideoCapture.h: 0 POS_MSEC, 1 POS_FRAMES, 2 the position ratio,
3 FRAME_WIDTH, 4 FRAME_HEIGHT, 5 FPS, 7 FRAME_COUNT.  Returns 0 when not
opened and for unknown ids; the demuxer dereference is total because get is
only reached with the demuxer present (opened sessions). -/
def get (s : SessionState) (propId : Int) : ℚ :=
  if !s.m_opened then 0
  else
    let dem := s.m_demuxer.getD default
    if propId = 3 then (dem.width : ℚ)
    else if propId = 4 then (dem.height : ℚ)
    else if propId = 5 then dem.frameRate
    else if propId = 7 then (s.m_frameCount : ℚ)
    else if propId = 0 then
      match s.m_currentFrame with
      | some fr => if fr.valid then fr.presentationTime * 1000 else 0
      | none => 0
    else if propId = 1 then
      match s.m_currentFrame with
      | some fr =>
          if fr.valid then
            if 0 < dem.frameRate then fr.presentationTime * dem.frameRate else 0
          else 0
      | none => 0
    else if propId = 2 then
      match s.m_currentFrame with
      | some fr =>
          if fr.valid then
            if 0 < dem.duration then fr.presentationTime / dem.duration else 0
          else 0
      | none => 0
    else 0

/-- Demuxer/decoder calls `set` performs, in order, for the trace-based
statement of what a seek does to the decoder. -/
inductive DemuxAction where
  | seekToTime (t : ℚ)
  | flushDecoder
deriving DecidableEq

/-- src/VideoCapture.cpp, set lines 164-207.  `seekOk` is the demuxer
SeekToTime result for the attempted seek (SeekToFrame delegates to
SeekToTime after converting via n / frameRate).  On a successful seek the
decoder is flushed and m_eof cleared; a failed seek, an unknown id, or a
non-positive duration for the ratio property returns false with the state
untouched.  The returned action list records the demuxer seek attempt and
the decoder flush. -/
def set (s : SessionState) (seekOk : Bool) (propId : Int) (value : ℚ) :
    Bool × SessionState × List DemuxAction :=
  if !s.m_opened then (false, s, [])
  else if propId = 0 then
    let timeInSeconds := value / 1000
    if seekOk then
      (true, { s with m_eof := false },
        [DemuxAction.seekToTime timeInSeconds, DemuxAction.flushDecoder])
    else (false, s, [DemuxAction.seekToTime timeInSeconds])
  else if propId = 1 then
    let dem := s.m_demuxer.getD default
    let frameNumber := cppTruncQ value
    let timeInSeconds := (frameNumber : ℚ) / dem.frameRate
    if seekOk then
      (true, { s with m_eof := false },
        [DemuxAction.seekToTime timeInSeconds, DemuxAction.flushDecoder])
    else (false, s, [DemuxAction.seekToTime timeInSeconds])
  else if propId = 2 then
    let dem := s.m_demuxer.getD default
    if 0 < dem.duration then
      let timeInSeconds := value * dem.duration
      if seekOk then
        (true, { s with m_eof := false },
          [DemuxAction.seekToTime timeInSeconds, DemuxAction.flushDecoder])
      else (false, s, [DemuxAction.seekToTime timeInSeconds])
    else (false, s, [])
  else (false, s, [])

/-- The drop events release performs, in source order. -/
inductive ReleaseAction where
  | dropFrame
  | dropDecoder
  | dropDemuxer
deriving DecidableEq

/-- src/VideoCapture.cpp, release lines 213-220: reset the current frame,
the decoder and the demuxer, in that order, then clear m_opened, m_eof and
m_frameCount. -/
def release (_s : SessionState) : SessionState × List ReleaseAction :=
  (⟨false, false, 0, none, none, none⟩,
    [ReleaseAction.dropFrame, ReleaseAction.dropDecoder, ReleaseAction.dropDemuxer])

/-- src/VideoCapture.cpp, InitializeDecoder lines 222-241: the backend gate
on the DecoderInfo obtained from HardwareDecoder::GetBestDecoder, then the
VideoDecoder construction whose outcome (FFmpeg codec open and hardware
context setup) is the oracle `decoderCoreInitOk`. -/
def InitializeDecoder_ok (decoderInfo : DecoderInfo) (decoderCoreInitOk : Bool) : Bool :=
  VideoDecoder.InitializeDecoder_backendOk decoderInfo && decoderCoreInitOk

/-- src/VideoCapture.cpp, open lines 52-88 (named openSession because open
is a Lean keyword): require the process-wide initialization, release any
prior session, open the demuxer (`demuxOpenResult` is its metadata on
success, none on failure), run InitializeDecoder with `decoderInfo` the
record GetBestDecoder returned, and on success cache the frame count as the
int64 truncation of duration times frameRate when both are positive, else
0, create the frame holder and mark the session opened. -/
def openSession (s_initialized : Bool) (s : SessionState)
    (demuxOpenResult : Option DemuxerModel) (decoderInfo : DecoderInfo)
    (decoderCoreInitOk : Bool) : Bool × SessionState :=
  if !s_initialized then (false, s)
  else
    let s0 := (release s).1
    match demuxOpenResult with
    | none => (false, s0)
    | some dem =>
        if InitializeDecoder_ok decoderInfo decoderCoreInitOk then
          let fc : Int :=
            if 0 < dem.duration ∧ 0 < dem.frameRate then
              cppTruncQ (dem.duration * dem.frameRate)
            else 0
          (true, ⟨true, false, fc, some dem, some (), some ⟨false, 0⟩⟩)
        else (false, (release s0).1)

end VideoCapture

/-! Helper lemmas shared by the claim theorems. -/

/-- Truncation toward zero agrees with the floor on positive rationals. -/
theorem cppTruncQ_of_pos (q : ℚ) (h : 0 < q) : cppTruncQ q = ⌊q⌋ := by
  unfold cppTruncQ
  exact if_pos h.le

/-- A record found by the GetBestDecoder scan is an available D3D11VA
backend supporting the requested codec. -/
theorem getBestDecoder_found (decoders : List DecoderInfo) (codecId : AVCodecID)
    (d : DecoderInfo)
    (h : decoders.find? (fun d =>
        d.available && decide (d.type = DecoderType.D3D11VA) &&
          HardwareDecoder.SupportsCodec d codecId) = some d) :
    d.available = true ∧ d.type = DecoderType.D3D11VA ∧
      HardwareDecoder.SupportsCodec d codecId = true := by
  have hp := List.find?_some h
  simp only [Bool.and_eq_true, decide_eq_true_eq] at hp
  exact ⟨hp.1.1, hp.1.2, hp.2⟩

/-- C1: for every session whose demuxer detected a codec for which
GetBestDecoder returns an available backend record, open is claimed to
construct the FrameDecoder from that record and fail on backend selection
only for the none sentinel.  The code contradicts this: the backend gate in
VideoCapture::InitializeDecoder accepts only NVDEC records, while
GetBestDecoder only ever returns D3D11VA records or the none sentinel (and
VideoDecoder::Initialize in turn accepts only D3D11VA records), so the gate
rejects every record GetBestDecoder can return — including the concrete
available D3D11VA record supporting H.264 exhibited in the last conjunct —
and open always fails with the no-hardware-backend error. -/
theorem C1_open_backend_gate_rejects_every_best_decoder :
    (∀ (inited : Bool) (decoders : List DecoderInfo) (codecId : AVCodecID),
       VideoDecoder.InitializeDecoder_backendOk
         (HardwareDecoder.GetBestDecoder inited decoders codecId) = false) ∧
    (∀ info : DecoderInfo,
       (VideoDecoder.InitializeDecoder_backendOk info &&
         VideoDecoder.Initialize_backendOk info) = false) ∧
    (HardwareDecoder.GetBestDecoder true
        [⟨DecoderType.D3D11VA, "D3D11VA Hardware Decoder", true⟩]
        AVCodecID.AV_CODEC_ID_H264 =
      ⟨DecoderType.D3D11VA, "D3D11VA Hardware Decoder", true⟩ ∧
     HardwareDecoder.SupportsCodec
        ⟨DecoderType.D3D11VA, "D3D11VA Hardware Decoder", true⟩
        AVCodecID.AV_CODEC_ID_H264 = true ∧
     VideoDecoder.InitializeDecoder_backendOk
        ⟨DecoderType.D3D11VA, "D3D11VA Hardware Decoder", true⟩ = false) := by
  refine ⟨?_, ?_, rfl, rfl, rfl⟩
  · intro inited decoders codecId
    unfold HardwareDecoder.GetBestDecoder
    cases inited with
    | false => rfl
    | true =>
        simp only [Bool.not_true, Bool.false_eq_true, if_false]
        rcases hfind : decoders.find? (fun d =>
            d.available && decide (d.type = DecoderType.D3D11VA) &&
              HardwareDecoder.SupportsCodec d codecId) with _ | d
        · simp [hfind]
          rfl
        · simp only [hfind]
          have hd := getBestDecoder_found decoders codecId d hfind
          unfold VideoDecoder.InitializeDecoder_backendOk
          rw [hd.2.1]
          rfl
  · intro info
    by_cases hb : (VideoDecoder.InitializeDecoder_backendOk info &&
        VideoDecoder.Initialize_backendOk info) = false
    · exact hb
    · exfalso
      rw [Bool.not_eq_false, Bool.and_eq_true] at hb
      obtain ⟨h1, h2⟩ := hb
      unfold VideoDecoder.InitializeDecoder_backendOk at h1
      unfold VideoDecoder.Initialize_backendOk at h2
      simp only [Bool.not_eq_true', Bool.not_or, Bool.and_eq_true] at h1 h2
      have t1 : info.type = DecoderType.NVDEC := by
        have h := h1.1
        simp only [Bool.not_eq_false', decide_eq_true_eq] at h
        exact h
      have t2 : info.type = DecoderType.D3D11VA := by
        have h := h2.1
        simp only [Bool.not_eq_false', decide_eq_true_eq] at h
        exact h
      rw [t1] at t2
      exact absurd t2 (by decide)

/-- C3 counterexample: with an initialized decoder, a send whose engine
result is AVERROR(EAGAIN) — decoder still buffering, try again — makes
SendPacket return false, where the claim requires true. -/
theorem C3_sendPacket_eagain_counterexample :
    VideoDecoder.SendPacket true true AVERROR_EAGAIN = false := by
  decide

/-- C3 amended: for an initialized decoder, SendPacket returns true exactly
on a non-negative engine result or on true end-of-stream (AVERROR_EOF);
every other negative engine result — including AVERROR(EAGAIN), the
still-buffering signal — is reported as false. -/
theorem C3_sendPacket_success_iff (ret : Int) :
    VideoDecoder.SendPacket true true ret = true ↔ 0 ≤ ret ∨ ret = AVERROR_EOF := by
  unfold VideoDecoder.SendPacket
  simp only [Bool.not_true, Bool.or_self, Bool.false_eq_true, if_false]
  split_ifs with h1 h2 <;> simp_all <;> omega

/-- C4: for an initialized decoder, ReceiveFrame returns true exactly in the
three non-error cases — engine says try again (AVERROR(EAGAIN)), engine says
end-of-stream (AVERROR_EOF), or a frame arrived and its hardware extraction
succeeded — and the valid flag it leaves is true exactly in the last case;
every genuine decode or extraction error returns false. -/
theorem C4_receiveFrame_outcomes (prevValid processOk : Bool) (ret : Int) :
    ((VideoDecoder.ReceiveFrame true true prevValid ret processOk).1 = true ↔
       ret = AVERROR_EAGAIN ∨ ret = AVERROR_EOF ∨ (0 ≤ ret ∧ processOk = true)) ∧
    ((VideoDecoder.ReceiveFrame true true prevValid ret processOk).2 = true ↔
       0 ≤ ret ∧ processOk = true) := by
  unfold VideoDecoder.ReceiveFrame
  simp only [Bool.not_true, Bool.or_self, Bool.false_eq_true, if_false,
    AVERROR_EAGAIN, AVERROR_EOF]
  split_ifs <;> simp_all <;> omega

/-- C9: release resets the session completely — dropping the frame, decoder
and demuxer in that order and clearing the opened, eof and frame-count state
— it is idempotent, and afterwards read returns false, get returns 0 for
every property id and set returns false, until a new open succeeds. -/
theorem C9_release_behaves_unopened (s : VideoCapture.SessionState) :
    (VideoCapture.release s).2 =
      [VideoCapture.ReleaseAction.dropFrame, VideoCapture.ReleaseAction.dropDecoder,
       VideoCapture.ReleaseAction.dropDemuxer] ∧
    (VideoCapture.release s).1.m_opened = false ∧
    (VideoCapture.release s).1.m_eof = false ∧
    (VideoCapture.release s).1.m_frameCount = 0 ∧
    (VideoCapture.release s).1.m_currentFrame = none ∧
    (VideoCapture.release s).1.m_decoder = none ∧
    (VideoCapture.release s).1.m_demuxer = none ∧
    VideoCapture.release (VideoCapture.release s).1 = VideoCapture.release s ∧
    (∀ steps, VideoCapture.read (VideoCapture.release s).1 steps =
       (false, (VideoCapture.release s).1)) ∧
    (∀ propId, VideoCapture.get (VideoCapture.release s).1 propId = 0) ∧
    (∀ seekOk propId value,
       VideoCapture.set (VideoCapture.release s).1 seekOk propId value =
         (false, (VideoCapture.release s).1, [])) := by
  refine ⟨rfl, rfl, rfl, rfl, rfl, rfl, rfl, rfl, fun steps => rfl,
    fun propId => rfl, fun seekOk propId value => rfl⟩

/-- C7: for the streaming buffer source, a Read with the cursor at or past
the buffer length returns the retry signal AVERROR(EAGAIN) while the EOF
flag is unset and the EOF signal AVERROR_EOF once SetEOF(true) has been
called; while the EOF flag is unset no Read ever returns the EOF signal. -/
theorem C7_bufferRead_eof_vs_retry (s : BufferDataSource.BufState) (size : Int) :
    (s.m_buffer.length ≤ s.m_position →
       (BufferDataSource.Read s size).1 =
         (if s.m_eof then AVERROR_EOF else AVERROR_EAGAIN)) ∧
    (s.m_eof = false → (BufferDataSource.Read s size).1 ≠ AVERROR_EOF) ∧
    (s.m_buffer.length ≤ s.m_position →
       (BufferDataSource.Read (BufferDataSource.SetEOF s true) size).1 = AVERROR_EOF) := by
  unfold BufferDataSource.Read BufferDataSource.SetEOF
  refine ⟨?_, ?_, ?_⟩
  · intro hpos
    rw [if_pos hpos]
    split_ifs <;> rfl
  · intro heof
    by_cases hpos : s.m_buffer.length ≤ s.m_position
    · rw [if_pos hpos, if_neg (by simp [heof])]
      simp [AVERROR_EAGAIN, AVERROR_EOF]
    · rw [if_neg hpos]
      simp only [AVERROR_EOF]
      omega
  · intro hpos
    split_ifs with h1 h2 <;>
      first
      | rfl
      | exact absurd rfl h2
      | exact absurd hpos h1

/-- C7 witness: on the empty, still-streaming buffer Read yields the retry
signal, and after SetEOF(true) the same Read yields the EOF signal. -/
theorem C7_bufferRead_witness :
    (BufferDataSource.Read ⟨[], 0, true, false⟩ 4).1 = AVERROR_EAGAIN ∧
    (BufferDataSource.Read
        (BufferDataSource.SetEOF ⟨[], 0, true, false⟩ true) 4).1 = AVERROR_EOF := by
  constructor
  · have h := (C7_bufferRead_eof_vs_retry ⟨[], 0, true, false⟩ 4).1 (by decide)
    simpa using h
  · exact (C7_bufferRead_eof_vs_retry ⟨[], 0, true, false⟩ 4).2.2 (by decide)

/-- C10: the buffer source keeps the cursor within [0, length] across every
operation (the cursor is a machine size_t, hence never negative): Read only
moves the cursor forward by at most the available bytes without touching
the buffer; Seek keeps the invariant and any failing Seek leaves the whole
state unchanged; a computed target outside [0, length] for SEEK_SET/CUR/END
and any invalid whence yield AVERROR(EINVAL) with the state unchanged;
SetData and Clear reset the cursor to 0; AppendData only grows the buffer
and leaves the cursor in place; SetEOF keeps the invariant. -/
theorem C10_cursor_invariant (s : BufferDataSource.BufState)
    (hinv : s.m_position ≤ s.m_buffer.length) :
    (∀ size : Int,
       (BufferDataSource.Read s size).2.2.m_buffer = s.m_buffer ∧
       s.m_position ≤ (BufferDataSource.Read s size).2.2.m_position ∧
       (BufferDataSource.Read s size).2.2.m_position ≤ s.m_buffer.length) ∧
    (∀ offset whence : Int,
       (BufferDataSource.Seek s offset whence).2.m_position ≤
         (BufferDataSource.Seek s offset whence).2.m_buffer.length ∧
       ((BufferDataSource.Seek s offset whence).1 < 0 →
          (BufferDataSource.Seek s offset whence).2 = s)) ∧
    (s.m_seekable = true →
       (∀ offset : Int, (offset < 0 ∨ (s.m_buffer.length : Int) < offset) →
          BufferDataSource.Seek s offset 0 = (AVERROR_EINVAL, s)) ∧
       (∀ offset : Int,
          ((s.m_position : Int) + offset < 0 ∨
            (s.m_buffer.length : Int) < (s.m_position : Int) + offset) →
          BufferDataSource.Seek s offset 1 = (AVERROR_EINVAL, s)) ∧
       (∀ offset : Int,
          ((s.m_buffer.length : Int) + offset < 0 ∨
            (s.m_buffer.length : Int) < (s.m_buffer.length : Int) + offset) →
          BufferDataSource.Seek s offset 2 = (AVERROR_EINVAL, s)) ∧
       (∀ offset whence : Int, whence ≠ 0 → whence ≠ 1 → whence ≠ 2 →
          whence ≠ AVSEEK_SIZE →
          BufferDataSource.Seek s offset whence = (AVERROR_EINVAL, s))) ∧
    (∀ data : List Nat, (BufferDataSource.SetData s data).m_position = 0) ∧
    (BufferDataSource.Clear s).m_position = 0 ∧
    (∀ data : List Nat,
       (BufferDataSource.AppendData s data).m_buffer.length =
         s.m_buffer.length + data.length ∧
       (BufferDataSource.AppendData s data).m_position = s.m_position ∧
       (BufferDataSource.AppendData s data).m_position ≤
         (BufferDataSource.AppendData s data).m_buffer.length) ∧
    (∀ eof : Bool,
       (BufferDataSource.SetEOF s eof).m_position ≤
         (BufferDataSource.SetEOF s eof).m_buffer.length) := by
  refine ⟨?_, ?_, ?_, fun data => rfl, rfl, ?_, fun eof => hinv⟩
  · intro size
    unfold BufferDataSource.Read
    split_ifs with hpos heof
    · exact ⟨rfl, le_refl _, hinv⟩
    · exact ⟨rfl, le_refl _, hinv⟩
    · refine ⟨rfl, ?_, ?_⟩ <;> simp <;> omega
  · intro offset whence
    unfold BufferDataSource.Seek BufferDataSource.seekRangeCheck
    split_ifs with h1 h2 h3 h4 h5 h6 h7 h8 h9 h10 <;>
      simp_all [AVERROR_ENOSYS, AVERROR_EINVAL] <;> omega
  · intro hseek
    refine ⟨?_, ?_, ?_, ?_⟩ <;> intro offset <;>
      [skip; skip; skip; intro whence h0 h1 h2 h3] <;>
      [intro hrange; intro hrange; intro hrange; skip] <;>
      unfold BufferDataSource.Seek BufferDataSource.seekRangeCheck <;>
      simp only [hseek, Bool.not_true, Bool.false_eq_true, if_false] <;>
      split_ifs <;> simp_all [AVSEEK_SIZE] <;> omega
  · intro data
    refine ⟨?_, rfl, ?_⟩ <;> simp [BufferDataSource.AppendData] <;> omega

/-- C10 witness: a Seek past the end of a three-byte buffer fails with
EINVAL and no state change, and a Read from the middle keeps the cursor
within the buffer length. -/
theorem C10_cursor_invariant_witness :
    BufferDataSource.Seek ⟨[5, 6, 7], 1, true, false⟩ 9 0 =
      (AVERROR_EINVAL, ⟨[5, 6, 7], 1, true, false⟩) ∧
    (BufferDataSource.Read ⟨[5, 6, 7], 1, true, false⟩ 2).2.2.m_position ≤ 3 := by
  have h := C10_cursor_invariant ⟨[5, 6, 7], 1, true, false⟩ (by decide)
  constructor
  · exact (h.2.2.1 rfl).1 9 (by decide)
  · have := (h.1 2).2.2
    simpa using this

/-- A successful FindVideoStream scan selected the first video stream and
that stream passed the codec allow-list. -/
theorem findVideoGo_some (streams : List VideoDemuxer.StreamInfo) :
    ∀ (i : Nat) (p : Nat × VideoDemuxer.StreamInfo),
      VideoDemuxer.findVideoGo i streams = some p →
      VideoDemuxer.firstVideo streams = some p.2 ∧
        VideoDemuxer.codecAllowed p.2.codecId = true := by
  induction streams with
  | nil => intro i p h; exact absurd h (by simp [VideoDemuxer.findVideoGo])
  | cons st rest ih =>
      intro i p h
      unfold VideoDemuxer.findVideoGo at h
      by_cases hv : st.isVideo = true
      · rw [if_pos hv] at h
        by_cases ha : VideoDemuxer.codecAllowed st.codecId = true
        · rw [if_pos ha] at h
          cases h
          exact ⟨by simp [VideoDemuxer.firstVideo, List.find?_cons_of_pos, hv], ha⟩
        · rw [if_neg ha] at h
          exact absurd h (by simp)
      · rw [if_neg hv] at h
        have hr := ih (i + 1) p h
        refine ⟨?_, hr.2⟩
        rw [show VideoDemuxer.firstVideo (st :: rest) = VideoDemuxer.firstVideo rest from ?_]
        · exact hr.1
        · simp [VideoDemuxer.firstVideo]
          exact List.find?_cons_of_neg _ (by simp [hv])

/-- When the first video stream carries a disallowed codec, the
FindVideoStream scan fails from any starting index. -/
theorem findVideoGo_none_of_bad (streams : List VideoDemuxer.StreamInfo)
    (st : VideoDemuxer.StreamInfo)
    (hfirst : VideoDemuxer.firstVideo streams = some st)
    (hbad : VideoDemuxer.codecAllowed st.codecId = false) :
    ∀ i : Nat, VideoDemuxer.findVideoGo i streams = none := by
  induction streams with
  | nil => intro i; exact absurd hfirst (by simp [VideoDemuxer.firstVideo])
  | cons hd rest ih =>
      intro i
      unfold VideoDemuxer.findVideoGo
      by_cases hv : hd.isVideo = true
      · rw [if_pos hv]
        have : hd = st := by
          have := hfirst
          unfold VideoDemuxer.firstVideo at this
          rw [List.find?_cons_of_pos _ hv] at this
          exact Option.some.inj this
        rw [this, if_neg (by simp [hbad])]
      · rw [if_neg hv]
        have hrest : VideoDemuxer.firstVideo rest = some st := by
          have := hfirst
          unfold VideoDemuxer.firstVideo at this ⊢
          rwa [List.find?_cons_of_neg _ (by simp [hv])] at this
        exact ih hrest (i + 1)

/-- C8: VideoDemuxer::Open returns true only when the container has a video
stream and the first video stream carries an allow-listed codec (H.264,
H.265/HEVC or AV1); when the first video stream carries any other codec,
Open returns false and leaves the demuxer in the closed/reset state. -/
theorem C8_open_codec_allowlist
    (openResult : Option (List VideoDemuxer.StreamInfo)) (findStreamInfoOk : Bool) :
    ((VideoDemuxer.Open openResult findStreamInfoOk).1 = true →
       ∃ streams st, openResult = some streams ∧
         VideoDemuxer.firstVideo streams = some st ∧
         VideoDemuxer.codecAllowed st.codecId = true) ∧
    (∀ streams st, openResult = some streams →
       VideoDemuxer.firstVideo streams = some st →
       VideoDemuxer.codecAllowed st.codecId = false →
       VideoDemuxer.Open openResult findStreamInfoOk =
         (false, VideoDemuxer.closedDemuxer)) := by
  constructor
  · intro hopen
    rcases openResult with _ | streams
    · exact absurd hopen (by simp [VideoDemuxer.Open])
    · unfold VideoDemuxer.Open at hopen
      by_cases hfio : findStreamInfoOk = true
      · rw [hfio] at hopen
        simp only [Bool.not_true, Bool.false_eq_true, if_false] at hopen
        rcases hfind : VideoDemuxer.FindVideoStream streams with _ | p
        · rw [hfind] at hopen
          exact absurd hopen (by simp)
        · have hp := findVideoGo_some streams 0 p hfind
          exact ⟨streams, p.2, rfl, hp.1, hp.2⟩
      · rw [Bool.not_eq_true] at hfio
        rw [hfio] at hopen
        exact absurd hopen (by simp)
  · intro streams st hres hfirst hbad
    subst hres
    unfold VideoDemuxer.Open
    by_cases hfio : findStreamInfoOk = true
    · rw [hfio]
      simp only [Bool.not_true, Bool.false_eq_true, if_false]
      rw [show VideoDemuxer.FindVideoStream streams = none from
        findVideoGo_none_of_bad streams st hfirst hbad 0]
    · rw [Bool.not_eq_true] at hfio
      rw [hfio]
      rfl

/-- C8 witness: a container whose only video stream (the second stream)
carries a disallowed codec makes Open fail with the demuxer reset. -/
theorem C8_open_codec_allowlist_witness :
    VideoDemuxer.Open
        (some [⟨false, AVCodecID.other 86018⟩, ⟨true, AVCodecID.other 2⟩]) true =
      (false, VideoDemuxer.closedDemuxer) := by
  exact (C8_open_codec_allowlist
      (some [⟨false, AVCodecID.other 86018⟩, ⟨true, AVCodecID.other 2⟩]) true).2
    [⟨false, AVCodecID.other 86018⟩, ⟨true, AVCodecID.other 2⟩]
    ⟨true, AVCodecID.other 2⟩ rfl (by decide) (by decide)

/-- When every consulted iteration neither yields a valid frame nor ends the
stream (ReceiveFrame unproductive, demuxer still delivering, SendPacket
succeeding), the pump loop burns all its fuel and exits through the
exhaustion path, firing the distinct exhaustion log. -/
theorem decodeGo_exhausts (steps : Nat → VideoCapture.PumpStep) :
    ∀ (fuel i : Nat),
      (∀ j, i ≤ j → j < i + fuel →
        ((steps j).recvOk && (steps j).recvValid) = false ∧
        (steps j).demuxOk = true ∧ (steps j).sendOk = true) →
      VideoCapture.decodeGo steps fuel i = (false, true, 0) := by
  intro fuel
  induction fuel with
  | zero => intro i _; rfl
  | succ n ih =>
      intro i h
      have hi := h i (le_refl i) (by omega)
      unfold VideoCapture.decodeGo
      simp only [hi.1, hi.2.1, hi.2.2, Bool.not_true, Bool.false_eq_true, if_false]
      exact ih (i + 1) (fun j hj1 hj2 => h j (by omega) (by omega))

/-- C2 counterexample: on an opened, non-EOF session whose decoder keeps
answering try-again while the demuxer keeps delivering packets, read
exhausts the 100-iteration pump ceiling, returns false — and sets the
session eof flag to true, which the claim says exhaustion must not do. -/
theorem C2_exhaustion_counterexample :
    (VideoCapture.read
        ⟨true, false, 0, some ⟨1, 25, 640, 480⟩, some (), some ⟨false, 0⟩⟩
        (fun _ => ⟨true, false, true, true, false, false, 0⟩)).1 = false ∧
    (VideoCapture.read
        ⟨true, false, 0, some ⟨1, 25, 640, 480⟩, some (), some ⟨false, 0⟩⟩
        (fun _ => ⟨true, false, true, true, false, false, 0⟩)).2.m_eof = true := by
  constructor <;> rfl

/-- C2 corrected: on pump-loop exhaustion read returns false and the
failure is logged through the distinct exhaustion path (second component of
DecodeNextFrame true), not the end-of-stream drain path — but read sets the
session eof flag on any DecodeNextFrame failure, exhaustion included, so
every subsequent read returns false immediately, exactly as after EOF. -/
theorem C2_pump_exhaustion_sets_eof (s : VideoCapture.SessionState)
    (steps : Nat → VideoCapture.PumpStep)
    (hopen : s.m_opened = true) (heof : s.m_eof = false)
    (hdec : s.m_decoder.isSome = true) (hdem : s.m_demuxer.isSome = true)
    (hstall : ∀ j, j < 100 →
       ((steps j).recvOk && (steps j).recvValid) = false ∧
       (steps j).demuxOk = true ∧ (steps j).sendOk = true) :
    VideoCapture.DecodeNextFrame s.m_decoder.isSome s.m_demuxer.isSome steps =
      (false, true, 0) ∧
    VideoCapture.read s steps = (false, { s with m_eof := true }) ∧
    (∀ steps2, VideoCapture.read { s with m_eof := true } steps2 =
       (false, { s with m_eof := true })) := by
  have hgo : VideoCapture.decodeGo steps 100 0 = (false, true, 0) :=
    decodeGo_exhausts steps 100 0 (fun j _ hj2 => hstall j (by omega))
  have hdecode : VideoCapture.DecodeNextFrame s.m_decoder.isSome s.m_demuxer.isSome
      steps = (false, true, 0) := by
    unfold VideoCapture.DecodeNextFrame
    rw [hdec, hdem]
    simpa using hgo
  refine ⟨hdecode, ?_, ?_⟩
  · unfold VideoCapture.read
    rw [hopen, heof, hdecode]
    rfl
  · intro steps2
    unfold VideoCapture.read
    rw [if_pos (by simp)]

/-- C2 witness: the corrected statement evaluated on a concrete opened
session and a constant try-again oracle. -/
theorem C2_pump_exhaustion_witness :
    VideoCapture.read
        ⟨true, false, 0, some ⟨1, 25, 640, 480⟩, some (), some ⟨false, 0⟩⟩
        (fun _ => ⟨true, false, true, true, false, false, 0⟩) =
      (false, ⟨true, true, 0, some ⟨1, 25, 640, 480⟩, some (), some ⟨false, 0⟩⟩) := by
  exact (C2_pump_exhaustion_sets_eof
      ⟨true, false, 0, some ⟨1, 25, 640, 480⟩, some (), some ⟨false, 0⟩⟩
      (fun _ => ⟨true, false, true, true, false, false, 0⟩)
      rfl rfl rfl rfl (fun j _ => ⟨rfl, rfl, rfl⟩)).2.1

/-- C5: on an opened session, a set on any of the three position properties
(0 POS_MSEC, 1 POS_FRAMES, 2 position ratio) whose demuxer seek succeeds
flushes the decoder, clears the eof flag and returns true; one whose
demuxer seek fails returns false and leaves the session state unchanged
with the decoder never flushed (its buffered state untouched).  For the
ratio property a seek is only attempted when the duration is positive. -/
theorem C5_set_position_seek (s : VideoCapture.SessionState) (seekOk : Bool)
    (propId : Int) (value : ℚ)
    (hopen : s.m_opened = true)
    (hprop : propId = 0 ∨ propId = 1 ∨ propId = 2) :
    (seekOk = true →
       (propId = 2 → 0 < (s.m_demuxer.getD default).duration) →
       (VideoCapture.set s seekOk propId value).1 = true ∧
       (VideoCapture.set s seekOk propId value).2.1 = { s with m_eof := false } ∧
       VideoCapture.DemuxAction.flushDecoder ∈
         (VideoCapture.set s seekOk propId value).2.2) ∧
    (seekOk = false →
       (VideoCapture.set s seekOk propId value).1 = false ∧
       (VideoCapture.set s seekOk propId value).2.1 = s ∧
       VideoCapture.DemuxAction.flushDecoder ∉
         (VideoCapture.set s seekOk propId value).2.2) := by
  rcases hprop with h | h | h <;> subst h
  · refine ⟨?_, ?_⟩
    · intro hseek _
      subst hseek
      simp [VideoCapture.set, hopen]
    · intro hseek
      subst hseek
      simp [VideoCapture.set, hopen]
  · refine ⟨?_, ?_⟩
    · intro hseek _
      subst hseek
      simp [VideoCapture.set, hopen]
    · intro hseek
      subst hseek
      simp [VideoCapture.set, hopen]
  · refine ⟨?_, ?_⟩
    · intro hseek hdur
      subst hseek
      have hd := hdur rfl
      simp [VideoCapture.set, hopen, hd]
    · intro hseek
      subst hseek
      by_cases hd : 0 < (s.m_demuxer.getD default).duration
      · simp [VideoCapture.set, hopen, hd]
      · simp [VideoCapture.set, hopen, hd]

/-- C5 witness: on a concrete opened session at eof, a successful seek via
POS_MSEC returns true and clears the eof flag, and a failed seek via
POS_FRAMES returns false. -/
theorem C5_set_position_seek_witness :
    (VideoCapture.set
        ⟨true, true, 50, some ⟨10, 25, 640, 480⟩, some (), some ⟨false, 0⟩⟩
        true 0 500).1 = true ∧
    (VideoCapture.set
        ⟨true, true, 50, some ⟨10, 25, 640, 480⟩, some (), some ⟨false, 0⟩⟩
        true 0 500).2.1.m_eof = false ∧
    (VideoCapture.set
        ⟨true, true, 50, some ⟨10, 25, 640, 480⟩, some (), some ⟨false, 0⟩⟩
        false 1 3).1 = false := by
  have h := C5_set_position_seek
    ⟨true, true, 50, some ⟨10, 25, 640, 480⟩, some (), some ⟨false, 0⟩⟩
    true 0 500 rfl (Or.inl rfl)
  have h2 := C5_set_position_seek
    ⟨true, true, 50, some ⟨10, 25, 640, 480⟩, some (), some ⟨false, 0⟩⟩
    false 1 3 rfl (Or.inr (Or.inl rfl))
  have hsucc := h.1 rfl (fun hx => absurd hx (by decide))
  exact ⟨hsucc.1, by rw [hsucc.2.1], (h2.2 rfl).1⟩

/-- C6: for a successful open, get(FRAME_COUNT) (property id 7) returns the
frame count cached at open, and that value is the floor of duration times
frame rate when both are positive and 0 otherwise. -/
theorem C6_frameCount_formula (inited : Bool) (s : VideoCapture.SessionState)
    (dem : VideoCapture.DemuxerModel) (info : DecoderInfo) (coreOk : Bool)
    (hsucc : (VideoCapture.openSession inited s (some dem) info coreOk).1 = true) :
    VideoCapture.get
        (VideoCapture.openSession inited s (some dem) info coreOk).2 7 =
      (if 0 < dem.duration ∧ 0 < dem.frameRate then
        ((⌊dem.duration * dem.frameRate⌋ : Int) : ℚ)
      else 0) := by
  cases inited with
  | false => exact absurd hsucc (by simp [VideoCapture.openSession])
  | true =>
      by_cases hgate : VideoCapture.InitializeDecoder_ok info coreOk = true
      · by_cases hc : 0 < dem.duration ∧ 0 < dem.frameRate
        · simp only [VideoCapture.openSession, VideoCapture.get, hgate, hc,
            Bool.not_true, Bool.false_eq_true, if_false, if_true,
            Option.getD_some]
          norm_num
          rw [cppTruncQ_of_pos _ (mul_pos hc.1 hc.2)]
        · simp only [VideoCapture.openSession, VideoCapture.get, hgate, hc,
            Bool.not_true, Bool.false_eq_true, if_false, if_true,
            Option.getD_some]
          norm_num
      · exact absurd hsucc (by simp [VideoCapture.openSession, hgate])

/-- C6 witness: opening with a 2-second, 25 fps stream caches and reports a
frame count of 50. -/
theorem C6_frameCount_witness :
    (VideoCapture.openSession true ⟨false, false, 0, none, none, none⟩
        (some ⟨2, 25, 640, 480⟩) ⟨DecoderType.NVDEC, "NVDEC", true⟩ true).1 = true ∧
    VideoCapture.get
        (VideoCapture.openSession true ⟨false, false, 0, none, none, none⟩
          (some ⟨2, 25, 640, 480⟩) ⟨DecoderType.NVDEC, "NVDEC", true⟩ true).2 7 =
      50 := by
  have hs : (VideoCapture.openSession true ⟨false, false, 0, none, none, none⟩
      (some ⟨2, 25, 640, 480⟩) ⟨DecoderType.NVDEC, "NVDEC", true⟩ true).1 = true := by
    rfl
  refine ⟨hs, ?_⟩
  rw [C6_frameCount_formula true ⟨false, false, 0, none, none, none⟩
    ⟨2, 25, 640, 480⟩ ⟨DecoderType.NVDEC, "NVDEC", true⟩ true hs]
  norm_num
